import Mathlib

/-!
Verification of the CourtLedger case-query core against its specification.

The inspectable source is the React front end (`src/App.tsx`, `src/lib/api.ts`,
`src/pages/court/RecentSearches.tsx`): the search handler, the REST client
shapes, the cause-list rendering and the client-side recency list.  Those parts
are embedded here directly from the source.  The FastAPI backend (the Case
Query Service, the Case Record Store and the Cause List Query Service) is not
present in the repository's inspectable source, so those operations are
modelled from the specification; each such definition is marked
`Modelled from the spec:` in its doc comment.
-/

namespace CourtLedger

/-- The `CaseQuery` response shape, from `src/lib/api.ts` (interface CaseQuery). -/
structure CaseQuery where
  id : Nat
  case_number : String
  court_name : String
  case_title : String
  case_type : String
  filing_date : String
  next_hearing_date : Option String
  case_status : String
  petitioner : String
  respondent : String
  judge_name : Option String
  created_at : String
  updated_at : String
deriving DecidableEq

/-- The `CauseListEntry` response shape, from `src/lib/api.ts` (interface CauseListEntry). -/
structure CauseListEntry where
  id : Nat
  court_name : String
  date : String
  case_number : String
  case_title : String
  petitioner : String
  respondent : String
  hearing_time : Option String
  courtroom : Option String
  judge_name : Option String
  case_status : String
  remarks : Option String
  created_at : String
  updated_at : String
deriving DecidableEq

/-- The search form state of the `CourtSearch` component, from `src/App.tsx`
(`formData`: caseType, caseNumber, year, courtName, all strings). -/
structure FormData where
  caseType : String
  caseNumber : String
  year : String
  courtName : String
deriving DecidableEq

/-- The canonical case-number string built by `handleSearch`
(`src/App.tsx:83`): the template string `caseType caseNumber/year`. -/
def fullCaseNumber (fd : FormData) : String :=
  fd.caseType ++ " " ++ fd.caseNumber ++ "/" ++ fd.year

/-- One entry of the client-local recent-searches list, as stored by
`handleSearch` (`src/App.tsx:113-117`): `id`, the spread of `formData`
(including `courtName`), and `searchDate`. -/
structure RecentSearch where
  id : Nat
  caseType : String
  caseNumber : String
  year : String
  courtName : String
  searchDate : String
deriving DecidableEq

/-- The recent-search object built at `src/App.tsx:113-117`. -/
def mkRecentSearch (nowId : Nat) (fd : FormData) (nowDate : String) : RecentSearch :=
  ⟨nowId, fd.caseType, fd.caseNumber, fd.year, fd.courtName, nowDate⟩

/-- Environment for one `handleSearch` run: the observable behaviour of the two
REST calls it can make (`courtApi.getCaseDetails` and `courtApi.submitCaseQuery`
from `src/lib/api.ts`).  `none` means the awaited call throws (request-level
error); `some c` means it resolves with record `c`. -/
structure Env where
  getCase : Option CaseQuery
  submit : Option CaseQuery
deriving DecidableEq

/-- An API request issued by the front end during a search. -/
inductive ApiCall where
  | getCase (caseNumber : String)
  | submitQuery (case_number : String) (court_name : String)
deriving DecidableEq

/-- The observable outcome of one `handleSearch` run: the rendered case
details (`setCaseDetails`), whether the error banner was set (`setError`),
the recent-searches list persisted to localStorage, and the API calls made,
in order. -/
structure SearchOutcome where
  caseDetails : Option CaseQuery
  errored : Bool
  recents : List RecentSearch
  calls : List ApiCall
deriving DecidableEq

/-- The `handleSearch` function of the `CourtSearch` component
(`src/App.tsx:68-133`), embedded as a pure state transformer.

* Lines 69-76: if any of `caseType`, `caseNumber`, `year` is the empty string
  (falsy), show a toast and return — no API call, localStorage untouched.
* Line 83: build `fullCaseNumber`.
* Lines 86-93: `await courtApi.getCaseDetails(fullCaseNumber)`; on success set
  the details.
* Lines 94-109: if that threw, `await courtApi.submitCaseQuery(...)`; on
  success set the details.
* Lines 111-119: after either API call returned a result, unshift the new
  search onto the localStorage list and keep `slice(0, 10)`.
* Lines 121-129: if the submit also threw, the outer catch sets the error and
  the recent-searches code is never reached. -/
def handleSearch (fd : FormData) (env : Env) (nowId : Nat) (nowDate : String)
    (stored : List RecentSearch) : SearchOutcome :=
  if fd.caseType == "" || fd.caseNumber == "" || fd.year == "" then
    ⟨none, false, stored, []⟩
  else
    let key := fullCaseNumber fd
    match env.getCase with
    | some existing =>
        ⟨some existing, false, (mkRecentSearch nowId fd nowDate :: stored).take 10,
          [ApiCall.getCase key]⟩
    | none =>
        match env.submit with
        | some fresh =>
            ⟨some fresh, false, (mkRecentSearch nowId fd nowDate :: stored).take 10,
              [ApiCall.getCase key, ApiCall.submitQuery key fd.courtName]⟩
        | none =>
            ⟨none, true, stored,
              [ApiCall.getCase key, ApiCall.submitQuery key fd.courtName]⟩

/-- `handleDelete` of the `RecentSearches` page
(`src/pages/court/RecentSearches.tsx:44-47`): filter one id out of the list. -/
def deleteRecent (targetId : Nat) (l : List RecentSearch) : List RecentSearch :=
  l.filter (fun s => !(s.id == targetId))

/-- An operation that can touch the client-local recent-searches list:
a search (`handleSearch`), a single deletion (`handleDelete`) or
`handleClearAll` (`src/pages/court/RecentSearches.tsx:55-57`). -/
inductive ClientOp where
  | search (fd : FormData) (env : Env) (nowId : Nat) (nowDate : String)
  | deleteOne (targetId : Nat)
  | clearAll
deriving DecidableEq

/-- Effect of one client operation on the stored recent-searches list. -/
def applyClientOp (st : List RecentSearch) : ClientOp → List RecentSearch
  | ClientOp.search fd env nowId nowDate => (handleSearch fd env nowId nowDate st).recents
  | ClientOp.deleteOne targetId => deleteRecent targetId st
  | ClientOp.clearAll => []

/-- Run a sequence of client operations over the recent-searches list. -/
def runClient (ops : List ClientOp) (init : List RecentSearch) : List RecentSearch :=
  ops.foldl applyClientOp init

/-- The fixed set of case-type codes offered by the search form
(`src/App.tsx:175-180`) and known to the recent-searches page
(`src/pages/court/RecentSearches.tsx:76-83`). -/
def caseTypeCodes : List String := ["CS", "CRL", "WP", "CC", "MA", "PIL"]

/-- Modelled from the spec: the CaseIdentifier invariants of section 3
(the backend validator is not in the inspectable source).  `caseType` must
belong to the fixed enumerated set, `caseNumber` must be non-empty, and the
year must parse as a 4-digit value not in the future (relative to
`currentYear`). -/
def specValidIdentifier (currentYear : Nat) (fd : FormData) : Bool :=
  caseTypeCodes.contains fd.caseType &&
  !(fd.caseNumber == "") &&
  (match fd.year.toNat? with
   | some y => decide (1000 ≤ y) && decide (y ≤ 9999) && decide (y ≤ currentYear)
   | none => false)

/-- Modelled from the spec: the CaseIdentifier value type of section 3
(the backend's identifier type is not in the inspectable source). -/
structure CaseIdentifier where
  caseType : String
  caseNumber : String
  year : Nat
  courtName : String
deriving DecidableEq

/-- Modelled from the spec: the canonical string form
`caseType caseNumber/year` of section 3, the natural key for lookups.
It agrees with the front end's `fullCaseNumber` (`src/App.tsx:83`). -/
def canonicalKey (i : CaseIdentifier) : String :=
  i.caseType ++ " " ++ i.caseNumber ++ "/" ++ toString i.year

/-- Modelled from the spec: the CaseIdentifier invariants of section 3, on the
backend identifier type: enumerated case type, non-empty case number, 4-digit
year not in the future. -/
def specValidCase (currentYear : Nat) (i : CaseIdentifier) : Bool :=
  caseTypeCodes.contains i.caseType &&
  !(i.caseNumber == "") &&
  decide (1000 ≤ i.year) && decide (i.year ≤ 9999) && decide (i.year ≤ currentYear)

/-- Modelled from the spec: the structured payload a successful Court Fetch
Adapter call returns (section 8 example scenario and section 3 CaseRecord
fields). -/
structure CaseData where
  case_title : String
  case_type : String
  filing_date : Option String
  next_hearing_date : Option String
  case_status : String
  petitioner : String
  respondent : String
  judge_name : Option String
  raw : String
deriving DecidableEq

/-- Modelled from the spec: the adapter-side failure modes of section 7
(timeout, not found, malformed response). -/
inductive AdapterFailure where
  | timeout
  | notFound
  | malformed
deriving DecidableEq

/-- Modelled from the spec: the outcome of one Court Fetch Adapter invocation
(section 9: `fetchCase(identifier) -> Result<CaseData, AdapterError>`). -/
inductive AdapterOutcome where
  | fetched (d : CaseData)
  | failed (f : AdapterFailure)
deriving DecidableEq

/-- Modelled from the spec: the stored CaseRecord entity of section 3. -/
structure CaseRecord where
  case_number : String
  court_name : String
  case_title : String
  case_type : String
  filing_date : Option String
  next_hearing_date : Option String
  case_status : String
  petitioner : String
  respondent : String
  judge_name : Option String
  rawResponse : String
  success : Bool
  errorMessage : Option String
deriving DecidableEq

/-- Modelled from the spec: the sanitized description of an adapter failure
(section 4.1 step 4: a sanitized description, never raw adapter internals). -/
def sanitizeFailure : AdapterFailure → String
  | AdapterFailure.timeout => "Request to the court portal timed out"
  | AdapterFailure.notFound => "Case not found on the court portal"
  | AdapterFailure.malformed => "Court portal returned a malformed response"

/-- Modelled from the spec: build the stored CaseRecord for a successful fetch
(section 4.1 step 4: `success = true`, raw adapter payload kept as
`rawResponse`, keyed by the canonical case number). -/
def buildSuccess (i : CaseIdentifier) (d : CaseData) : CaseRecord :=
  { case_number := canonicalKey i
    court_name := i.courtName
    case_title := d.case_title
    case_type := d.case_type
    filing_date := d.filing_date
    next_hearing_date := d.next_hearing_date
    case_status := d.case_status
    petitioner := d.petitioner
    respondent := d.respondent
    judge_name := d.judge_name
    rawResponse := d.raw
    success := true
    errorMessage := none }

/-- Modelled from the spec: build the stored CaseRecord for a failed fetch
(section 4.1 step 4: `success = false`, sanitized `errorMessage`). -/
def buildFailure (i : CaseIdentifier) (f : AdapterFailure) : CaseRecord :=
  { case_number := canonicalKey i
    court_name := i.courtName
    case_title := ""
    case_type := i.caseType
    filing_date := none
    next_hearing_date := none
    case_status := ""
    petitioner := ""
    respondent := ""
    judge_name := none
    rawResponse := ""
    success := false
    errorMessage := some (sanitizeFailure f) }

/-- Modelled from the spec: `findByCanonicalKey` of the Case Record Store
contract (section 4.3). -/
def findByKey (s : List CaseRecord) (k : String) : Option CaseRecord :=
  s.find? (fun r => r.case_number == k)

/-- Modelled from the spec: `upsertByCanonicalKey` of the Case Record Store
contract (sections 3 and 4.3): at-most-one row per canonical case number,
last-write-wins — any prior row for the key is overwritten. -/
def upsertByKey (s : List CaseRecord) (k : String) (r : CaseRecord) : List CaseRecord :=
  s.filter (fun x => !(x.case_number == k)) ++ [r]

/-- Number of stored rows carrying a given canonical key. -/
def countKey (k : String) (s : List CaseRecord) : Nat :=
  (s.filter (fun x => x.case_number == k)).length

/-- Whether the store already holds a record for the key with `success = true`
(the cache-hit condition of section 4.1 step 3). -/
def cacheHit (s : List CaseRecord) (k : String) : Bool :=
  match findByKey s k with
  | some r => r.success
  | none => false

/-- Modelled from the spec: the fetch-and-upsert path of section 4.1 step 4:
invoke the adapter once, normalize either outcome into a CaseRecord, upsert it
by canonical key, return it together with the new store and the adapter-call
count. -/
def fetchAndStore (i : CaseIdentifier) (a : AdapterOutcome) (s : List CaseRecord) :
    CaseRecord × List CaseRecord × Nat :=
  match a with
  | AdapterOutcome.fetched d =>
      let r := buildSuccess i d
      (r, upsertByKey s (canonicalKey i) r, 1)
  | AdapterOutcome.failed f =>
      let r := buildFailure i f
      (r, upsertByKey s (canonicalKey i) r, 1)

/-- Modelled from the spec: `getOrFetch` of the Case Query Service
(section 4.1).  Validate the identifier first (ValidationError before any
store/adapter access), then look up by canonical key; on a hit with
`success = true` return the stored record unchanged with no adapter call;
otherwise invoke the adapter (whose outcome for this call is the argument
`a`) and upsert the normalized record.  The returned Nat counts adapter
invocations made by this call. -/
def getOrFetch (currentYear : Nat) (i : CaseIdentifier) (a : AdapterOutcome)
    (s : List CaseRecord) : Except String (CaseRecord × List CaseRecord × Nat) :=
  if specValidCase currentYear i then
    match findByKey s (canonicalKey i) with
    | some r => if r.success then Except.ok (r, s, 0) else Except.ok (fetchAndStore i a s)
    | none => Except.ok (fetchAndStore i a s)
  else
    Except.error "ValidationError: malformed CaseIdentifier"

/-- The store after one `getOrFetch` call (a validation error leaves the store
untouched, since it occurs before any store access). -/
def stepStore (currentYear : Nat) (i : CaseIdentifier) (s : List CaseRecord)
    (a : AdapterOutcome) : List CaseRecord :=
  match getOrFetch currentYear i a s with
  | Except.error _ => s
  | Except.ok (_, s', _) => s'

/-- The store after a sequence of `getOrFetch` calls for one identifier, with
the successive adapter outcomes given by the list. -/
def runStore (currentYear : Nat) (i : CaseIdentifier) (as : List AdapterOutcome)
    (s : List CaseRecord) : List CaseRecord :=
  as.foldl (stepStore currentYear i) s

/-- The dedup key for cause-list rows: the (caseNumber, date, courtName)
tuple of section 4.2. -/
def entryKey (e : CauseListEntry) : String × String × String :=
  (e.case_number, e.date, e.court_name)

/-- Whether some stored row already carries the given dedup key. -/
def keyMem (k : String × String × String) (store : List CauseListEntry) : Bool :=
  store.any (fun x => decide (entryKey x = k))

/-- Modelled from the spec: `refresh(courtName, date)` of the Cause List Query
Service (section 4.2): the adapter's listing is diffed against existing rows
by the (caseNumber, date, courtName) tuple before insert, and only the rows
not already present are appended. -/
def refresh (store listing : List CauseListEntry) : List CauseListEntry :=
  store ++ listing.filter (fun e => !(keyMem (entryKey e) store))

/-- A string as its sequence of character codes; string comparisons below are
code-point lexicographic, via this encoding. -/
def strKey (s : String) : List Nat :=
  s.data.map Char.toNat

/-- Sort key for cause-list ordering: hearing time ascending with missing
times last (encoded as the lexicographic pair `(isNone, time)`), ties broken
by case number ascending. -/
def causeKey (e : CauseListEntry) : Lex (Lex (Bool × List Nat) × List Nat) :=
  toLex (toLex (e.hearing_time.isNone, strKey (e.hearing_time.getD "")), strKey e.case_number)

/-- The cause-list ordering relation of section 4.2. -/
def causeRel (a b : CauseListEntry) : Prop :=
  causeKey a ≤ causeKey b

instance : DecidableRel causeRel :=
  fun a b => inferInstanceAs (Decidable (causeKey a ≤ causeKey b))

instance : IsTotal CauseListEntry causeRel :=
  ⟨fun a b => le_total (causeKey a) (causeKey b)⟩

instance : IsTrans CauseListEntry causeRel :=
  ⟨fun _ _ _ hab hbc => le_trans hab hbc⟩

/-- The ordering guarantee of section 4.2, spelled out: strictly earlier
hearing time first (code-point lexicographic); equal hearing times (including
both missing) ordered by case number ascending; a missing hearing time sorts
after every present one. -/
def orderOk (a b : CauseListEntry) : Prop :=
  match a.hearing_time, b.hearing_time with
  | some ta, some tb => strKey ta < strKey tb ∨ (ta = tb ∧ strKey a.case_number ≤ strKey b.case_number)
  | some _, none => True
  | none, some _ => False
  | none, none => strKey a.case_number ≤ strKey b.case_number

/-- Modelled from the spec: `query(courtName, date, limit, skip)` of the Cause
List Query Service (section 4.2): a pure read filtered by exact courtName and
date equality, returned in the guaranteed order, then paged by skip/limit. -/
def query (store : List CauseListEntry) (court date : String) (skip limit : Nat) :
    List CauseListEntry :=
  (((store.filter (fun e => e.court_name == court && e.date == date)).insertionSort
      causeRel).drop skip).take limit

/-- Character-list matching of a candidate leading segment, used to embed the
JavaScript `String.prototype.includes` of `src/pages/court/RecentSearches.tsx:400`. -/
def headMatch : List Char → List Char → Bool
  | [], _ => true
  | _ :: _, [] => false
  | a :: as, b :: bs => a == b && headMatch as bs

/-- Substring search over character lists: does `needle` occur contiguously
inside the second argument? -/
def subMatch (needle : List Char) : List Char → Bool
  | [] => needle.isEmpty
  | b :: bs => headMatch needle (b :: bs) || subMatch needle bs

/-- Embedding of JavaScript `hay.includes(needle)`. -/
def strIncludes (hay needle : String) : Bool :=
  subMatch needle.data hay.data

/-- The cause-list rows as rendered by the `CauseList` component
(`src/pages/court/RecentSearches.tsx:399-413`): every fetched entry is mapped
to a table row, paired with its highlight flag
`formData.caseNumber && item.case_number.includes(formData.caseNumber)`. -/
def causeRows (data : List CauseListEntry) (filterStr : String) :
    List (CauseListEntry × Bool) :=
  data.map (fun item => (item, !(filterStr == "") && strIncludes item.case_number filterStr))

/-- A concrete cause-list entry used in witnesses (hearing at 10:30). -/
def demoEntryA : CauseListEntry :=
  ⟨1, "H", "2025-01-01", "B 2/2024", "title", "pet", "res", some "10:30",
    none, none, "Listed", none, "", ""⟩

/-- A concrete cause-list entry used in witnesses (no hearing time). -/
def demoEntryB : CauseListEntry :=
  ⟨2, "H", "2025-01-01", "A 1/2024", "title", "pet", "res", none,
    none, none, "Listed", none, "", ""⟩

/-- A concrete cause-list entry used in witnesses (hearing at 09:00). -/
def demoEntryC : CauseListEntry :=
  ⟨3, "H", "2025-01-01", "C 3/2024", "title", "pet", "res", some "09:00",
    none, none, "Listed", none, "", ""⟩

/-! Helper lemmas. -/

theorem headMatch_iff (n : List Char) : ∀ h : List Char,
    headMatch n h = true ↔ ∃ post, h = n ++ post := by
  induction n with
  | nil =>
      intro h
      simp [headMatch]
  | cons a as ih =>
      intro h
      cases h with
      | nil => simp [headMatch]
      | cons b bs =>
          simp only [headMatch, Bool.and_eq_true, beq_iff_eq, ih, List.cons_append,
            List.cons.injEq]
          constructor
          · rintro ⟨hab, post, hpost⟩
            exact ⟨post, hab.symm, hpost⟩
          · rintro ⟨post, hab, hpost⟩
            exact ⟨hab.symm, post, hpost⟩

theorem subMatch_iff (n : List Char) : ∀ h : List Char,
    subMatch n h = true ↔ ∃ pre post, h = pre ++ n ++ post := by
  intro h
  induction h with
  | nil =>
      simp only [subMatch, List.isEmpty_iff]
      constructor
      · rintro rfl
        exact ⟨[], [], rfl⟩
      · rintro ⟨pre, post, hp⟩
        rcases List.append_eq_nil.mp (List.append_eq_nil.mp hp.symm).1 with ⟨-, h2⟩
        exact h2
  | cons b bs ih =>
      simp only [subMatch, Bool.or_eq_true, headMatch_iff, ih]
      constructor
      · rintro (⟨post, hpost⟩ | ⟨pre, post, hp⟩)
        · exact ⟨[], post, by simpa using hpost⟩
        · exact ⟨b :: pre, post, by simp [hp]⟩
      · rintro ⟨pre, post, hp⟩
        cases pre with
        | nil =>
            exact Or.inl ⟨post, by simpa using hp⟩
        | cons x xs =>
            rcases List.cons.injEq .. ▸ hp with ⟨-, htail⟩
            exact Or.inr ⟨xs, post, htail⟩

/-! Claim theorems about the front end. -/

/-- Claim C3: the canonical key built by the search handler equals the string
`caseType caseNumber/year` and depends only on `(caseType, caseNumber, year)` —
two form states differing only in `courtName` produce the same key. -/
theorem claim_C3_canonical_key (ct cn y court court' : String) :
    fullCaseNumber ⟨ct, cn, y, court⟩ = ct ++ " " ++ cn ++ "/" ++ y ∧
    fullCaseNumber ⟨ct, cn, y, court⟩ = fullCaseNumber ⟨ct, cn, y, court'⟩ :=
  ⟨rfl, rfl⟩

/-- Claim C5 (amended): if any of the three form fields `caseType`,
`caseNumber`, `year` is empty, `handleSearch` returns before any store lookup
or adapter call — no API request is issued and the recent-searches list is
untouched.  (The client-side check is a presence check only.) -/
theorem claim_C5_presence_check (fd : FormData) (env : Env) (nowId : Nat)
    (nowDate : String) (stored : List RecentSearch)
    (h : fd.caseType = "" ∨ fd.caseNumber = "" ∨ fd.year = "") :
    (handleSearch fd env nowId nowDate stored).calls = [] ∧
    (handleSearch fd env nowId nowDate stored).recents = stored := by
  have hb : (fd.caseType == "" || fd.caseNumber == "" || fd.year == "") = true := by
    rcases h with h | h | h <;> simp [h]
  rw [handleSearch, if_pos hb]
  exact ⟨rfl, rfl⟩

/-- Witness for claim C5 (amended) at a concrete empty-field form state. -/
theorem claim_C5_witness :
    (handleSearch ⟨"", "123", "2023", "High Court of Delhi"⟩ ⟨none, none⟩ 0 "" []).calls = [] ∧
    (handleSearch ⟨"", "123", "2023", "High Court of Delhi"⟩ ⟨none, none⟩ 0 "" []).recents = [] :=
  claim_C5_presence_check ⟨"", "123", "2023", "High Court of Delhi"⟩ ⟨none, none⟩ 0 "" []
    (Or.inl rfl)

/-- Claim C5 counterexample: the form state `⟨"ZZZ", "1", "3050"⟩` violates the
CaseIdentifier invariants of section 3 (unknown case type, future year), yet
`handleSearch` still performs the store lookup (and, after it fails, the
adapter query) — so an invalid identifier does reach the store and adapter. -/
theorem claim_C5_counterexample :
    specValidIdentifier 2026 ⟨"ZZZ", "1", "3050", "High Court of Delhi"⟩ = false ∧
    ApiCall.getCase "ZZZ 1/3050" ∈
      (handleSearch ⟨"ZZZ", "1", "3050", "High Court of Delhi"⟩ ⟨none, none⟩ 0 "" []).calls := by
  decide

/-- Each `handleSearch` run either leaves the stored recent-searches list
unchanged or replaces it by the new entry consed on front, truncated to 10. -/
theorem handleSearch_recents (fd : FormData) (env : Env) (nowId : Nat)
    (nowDate : String) (st : List RecentSearch) :
    (handleSearch fd env nowId nowDate st).recents = st ∨
    (handleSearch fd env nowId nowDate st).recents =
      (mkRecentSearch nowId fd nowDate :: st).take 10 := by
  rcases env with ⟨g, sub⟩
  rw [handleSearch]
  split
  · exact Or.inl rfl
  · cases g with
    | some c => exact Or.inr rfl
    | none =>
        cases sub with
        | some c => exact Or.inr rfl
        | none => exact Or.inl rfl

/-- Claim C9: starting from a recent-searches list within the bound, any
sequence of client operations (searches, single deletions, clear-all) keeps
the stored list at 10 entries or fewer; and every search that records an
entry stores exactly the new entry consed onto the old list, truncated to the
10 most recent. -/
theorem claim_C9_recents_bounded (ops : List ClientOp) (init : List RecentSearch)
    (h : init.length ≤ 10) :
    (runClient ops init).length ≤ 10 ∧
    ∀ fd env nowId nowDate st, (handleSearch fd env nowId nowDate st).recents = st ∨
      (handleSearch fd env nowId nowDate st).recents =
        (mkRecentSearch nowId fd nowDate :: st).take 10 := by
  refine ⟨?_, fun fd env nowId nowDate st => handleSearch_recents fd env nowId nowDate st⟩
  induction ops generalizing init with
  | nil => simpa [runClient]
  | cons op rest ih =>
      have hstep : (applyClientOp init op).length ≤ 10 := by
        cases op with
        | search fd env nowId nowDate =>
            rcases handleSearch_recents fd env nowId nowDate init with hr | hr <;>
              simp only [applyClientOp, hr]
            · exact h
            · exact le_trans (List.length_take_le 10 _) (le_refl 10)
        | deleteOne targetId =>
            exact le_trans (List.length_filter_le _ _) h
        | clearAll => simp [applyClientOp]
      simpa [runClient, List.foldl_cons] using ih _ hstep

/-- Witness for claim C9 at a concrete one-search run. -/
theorem claim_C9_witness :
    (runClient [ClientOp.search ⟨"WP", "5678", "2023", "High Court of Delhi"⟩
        ⟨none, none⟩ 1 "2025-01-01"] []).length ≤ 10 ∧
    ((handleSearch ⟨"WP", "5678", "2023", "High Court of Delhi"⟩ ⟨none, none⟩ 1
        "2025-01-01" []).recents = [] ∨
      (handleSearch ⟨"WP", "5678", "2023", "High Court of Delhi"⟩ ⟨none, none⟩ 1
        "2025-01-01" []).recents =
        (mkRecentSearch 1 ⟨"WP", "5678", "2023", "High Court of Delhi"⟩ "2025-01-01" :: []).take 10) :=
  ⟨(claim_C9_recents_bounded _ [] (by decide)).1,
   (claim_C9_recents_bounded [] [] (by decide)).2 ⟨"WP", "5678", "2023", "High Court of Delhi"⟩
     ⟨none, none⟩ 1 "2025-01-01" []⟩

/-- Claim C10: when both the existing-case lookup and the fresh case-query
submission throw (both REST calls fail at request level), `handleSearch` takes
the outer catch path and the persisted recent-searches list is left exactly as
it was — the failed search is never recorded. -/
theorem claim_C10_failed_search_not_recorded (fd : FormData) (nowId : Nat)
    (nowDate : String) (stored : List RecentSearch) :
    (handleSearch fd ⟨none, none⟩ nowId nowDate stored).recents = stored := by
  rw [handleSearch]
  split
  · rfl
  · rfl

/-- Claim C7: the cause-list case-number filter never removes rows — the
rendered rows are exactly the fetched entries, in order — and, for a non-empty
filter, a row is flagged as highlighted precisely when its case number
contains the filter as a contiguous substring. -/
theorem claim_C7_filter_highlights_only (data : List CauseListEntry) (f : String)
    (hf : f ≠ "") :
    (causeRows data f).map Prod.fst = data ∧
    ∀ e b, (e, b) ∈ causeRows data f →
      (b = true ↔ ∃ pre post, e.case_number.data = pre ++ f.data ++ post) := by
  constructor
  · simp [causeRows, Function.comp_def]
  · intro e b hmem
    simp only [causeRows, List.mem_map] at hmem
    obtain ⟨item, hitem, heq⟩ := hmem
    have he : e = item := (congrArg Prod.fst heq).symm
    have hb : b = (!(f == "") && strIncludes item.case_number f) := (congrArg Prod.snd heq).symm
    subst he
    subst hb
    have hfb : (f == "") = false := by
      simpa using hf
    rw [hfb]
    simp only [Bool.not_false, Bool.true_and]
    exact subMatch_iff f.data e.case_number.data

/-- Witness for claim C7 at a concrete two-row cause list and filter "23". -/
theorem claim_C7_witness :
    ((causeRows [⟨1, "H", "2025-01-01", "WP 123/2023", "t", "p", "r", some "10:30",
        none, none, "Listed", none, "", ""⟩] "23").map Prod.fst =
      [⟨1, "H", "2025-01-01", "WP 123/2023", "t", "p", "r", some "10:30",
        none, none, "Listed", none, "", ""⟩]) ∧
    (∃ pre post,
      (⟨1, "H", "2025-01-01", "WP 123/2023", "t", "p", "r", some "10:30",
        none, none, "Listed", none, "", ""⟩ : CauseListEntry).case_number.data =
        pre ++ ("23" : String).data ++ post) := by
  refine ⟨(claim_C7_filter_highlights_only _ "23" (by decide)).1, ?_⟩
  have h := (claim_C7_filter_highlights_only
      [⟨1, "H", "2025-01-01", "WP 123/2023", "t", "p", "r", some "10:30",
        none, none, "Listed", none, "", ""⟩] "23" (by decide)).2
  exact (h ⟨1, "H", "2025-01-01", "WP 123/2023", "t", "p", "r", some "10:30",
      none, none, "Listed", none, "", ""⟩ true (by decide)).mp rfl

/-! Store lemmas for the Case Query Service. -/

theorem buildSuccess_key (i : CaseIdentifier) (d : CaseData) :
    (buildSuccess i d).case_number = canonicalKey i := rfl

theorem buildFailure_key (i : CaseIdentifier) (f : AdapterFailure) :
    (buildFailure i f).case_number = canonicalKey i := rfl

theorem findByKey_upsert (s : List CaseRecord) (k : String) (r : CaseRecord)
    (h : r.case_number = k) : findByKey (upsertByKey s k r) k = some r := by
  unfold findByKey upsertByKey
  induction s with
  | nil => simp [h]
  | cons x xs ih =>
      by_cases hx : x.case_number = k
      · simpa [List.filter_cons, hx] using ih
      · simpa [List.filter_cons, hx, List.find?_cons, hx] using ih

theorem countKey_upsert (s : List CaseRecord) (k : String) (r : CaseRecord)
    (h : r.case_number = k) : countKey k (upsertByKey s k r) = 1 := by
  unfold countKey upsertByKey
  rw [List.filter_append]
  have hnil : (s.filter (fun x => !(x.case_number == k))).filter
      (fun x => x.case_number == k) = [] := by
    rw [List.filter_filter]
    apply List.filter_eq_nil_iff.mpr
    intro a _
    cases hak : (a.case_number == k) <;> simp [hak]
  rw [hnil]
  simp [h]

theorem findByKey_countKey_pos (s : List CaseRecord) (k : String) (r : CaseRecord)
    (h : findByKey s k = some r) : 1 ≤ countKey k s := by
  unfold findByKey at h
  have hmem : r ∈ s := List.mem_of_find?_eq_some h
  have hpred := List.find?_some h
  have : r ∈ s.filter (fun x => x.case_number == k) :=
    List.mem_filter.mpr ⟨hmem, by simpa using hpred⟩
  exact List.length_pos.mpr (List.ne_nil_of_mem this)

theorem getOrFetch_hit (currentYear : Nat) (i : CaseIdentifier) (a : AdapterOutcome)
    (s : List CaseRecord) (r : CaseRecord) (hv : specValidCase currentYear i = true)
    (hfind : findByKey s (canonicalKey i) = some r) (hsucc : r.success = true) :
    getOrFetch currentYear i a s = Except.ok (r, s, 0) := by
  simp [getOrFetch, hv, hfind, hsucc]

theorem getOrFetch_none (currentYear : Nat) (i : CaseIdentifier) (a : AdapterOutcome)
    (s : List CaseRecord) (hv : specValidCase currentYear i = true)
    (hfind : findByKey s (canonicalKey i) = none) :
    getOrFetch currentYear i a s = Except.ok (fetchAndStore i a s) := by
  simp [getOrFetch, hv, hfind]

theorem getOrFetch_stale (currentYear : Nat) (i : CaseIdentifier) (a : AdapterOutcome)
    (s : List CaseRecord) (r : CaseRecord) (hv : specValidCase currentYear i = true)
    (hfind : findByKey s (canonicalKey i) = some r) (hsucc : r.success = false) :
    getOrFetch currentYear i a s = Except.ok (fetchAndStore i a s) := by
  simp [getOrFetch, hv, hfind, hsucc]

theorem countKey_fetchAndStore (i : CaseIdentifier) (a : AdapterOutcome)
    (s : List CaseRecord) :
    countKey (canonicalKey i) (fetchAndStore i a s).2.1 = 1 := by
  cases a with
  | fetched d => exact countKey_upsert s (canonicalKey i) (buildSuccess i d) rfl
  | failed f => exact countKey_upsert s (canonicalKey i) (buildFailure i f) rfl

theorem countKey_stepStore (currentYear : Nat) (i : CaseIdentifier) (a : AdapterOutcome)
    (s : List CaseRecord) (hv : specValidCase currentYear i = true)
    (h : countKey (canonicalKey i) s ≤ 1) :
    countKey (canonicalKey i) (stepStore currentYear i s a) = 1 := by
  unfold stepStore getOrFetch
  rw [if_pos hv]
  cases hfind : findByKey s (canonicalKey i) with
  | none =>
      simpa using countKey_fetchAndStore i a s
  | some r =>
      cases hr : r.success with
      | true =>
          have h1 : 1 ≤ countKey (canonicalKey i) s := findByKey_countKey_pos s _ r hfind
          simpa [hr] using le_antisymm h h1
      | false =>
          simpa [hr] using countKey_fetchAndStore i a s

theorem countKey_runStore_one (currentYear : Nat) (i : CaseIdentifier)
    (as : List AdapterOutcome) (hv : specValidCase currentYear i = true) :
    ∀ s : List CaseRecord, countKey (canonicalKey i) s = 1 →
      countKey (canonicalKey i) (runStore currentYear i as s) = 1 := by
  induction as with
  | nil =>
      intro s h
      simpa [runStore]
  | cons a rest ih =>
      intro s h
      have hstep := countKey_stepStore currentYear i a s hv (le_of_eq h)
      simpa [runStore, List.foldl_cons] using ih _ hstep

/-! Claim theorems about the Case Query Service. -/

/-- Claim C1: for a valid identifier, `getOrFetch` is cache-first — when the
store holds a record for the canonical key with `success = true`, that record
is returned unchanged, the store is untouched and the adapter is not invoked;
every call makes at most one adapter call; an adapter call happens only when
there was no successful cached record; and after a call whose adapter fetch
succeeded, a second call for the same identifier returns the identical stored
record with zero adapter invocations. -/
theorem claim_C1_cache_first (currentYear : Nat) (i : CaseIdentifier)
    (a a2 : AdapterOutcome) (s : List CaseRecord)
    (hv : specValidCase currentYear i = true) :
    (∀ r, findByKey s (canonicalKey i) = some r → r.success = true →
        getOrFetch currentYear i a s = Except.ok (r, s, 0)) ∧
    (∀ rec s' n, getOrFetch currentYear i a s = Except.ok (rec, s', n) → n ≤ 1) ∧
    (∀ rec s' n, getOrFetch currentYear i a s = Except.ok (rec, s', n) → n = 1 →
        cacheHit s (canonicalKey i) = false) ∧
    (∀ d rec s' n, a = AdapterOutcome.fetched d →
        getOrFetch currentYear i a s = Except.ok (rec, s', n) →
        getOrFetch currentYear i a2 s' = Except.ok (rec, s', 0)) := by
  refine ⟨?_, ?_, ?_, ?_⟩
  · intro r hfind hsucc
    exact getOrFetch_hit currentYear i a s r hv hfind hsucc
  · intro rec s' n hok
    cases hfind : findByKey s (canonicalKey i) with
    | some r =>
        cases hr : r.success with
        | true =>
            rw [getOrFetch_hit currentYear i a s r hv hfind hr] at hok
            simp only [Except.ok.injEq, Prod.mk.injEq] at hok
            obtain ⟨-, -, h3⟩ := hok
            omega
        | false =>
            rw [getOrFetch_stale currentYear i a s r hv hfind hr] at hok
            cases a <;>
              simp only [fetchAndStore, Except.ok.injEq, Prod.mk.injEq] at hok <;>
              obtain ⟨-, -, h3⟩ := hok <;> omega
    | none =>
        rw [getOrFetch_none currentYear i a s hv hfind] at hok
        cases a <;>
          simp only [fetchAndStore, Except.ok.injEq, Prod.mk.injEq] at hok <;>
          obtain ⟨-, -, h3⟩ := hok <;> omega
  · intro rec s' n hok hn
    cases hfind : findByKey s (canonicalKey i) with
    | some r =>
        cases hr : r.success with
        | true =>
            rw [getOrFetch_hit currentYear i a s r hv hfind hr] at hok
            simp only [Except.ok.injEq, Prod.mk.injEq] at hok
            obtain ⟨-, -, h3⟩ := hok
            exfalso
            omega
        | false =>
            simp [cacheHit, hfind, hr]
    | none =>
        simp [cacheHit, hfind]
  · intro d rec s' n ha hok
    subst ha
    cases hfind : findByKey s (canonicalKey i) with
    | some r =>
        cases hr : r.success with
        | true =>
            rw [getOrFetch_hit currentYear i (AdapterOutcome.fetched d) s r hv hfind hr] at hok
            simp only [Except.ok.injEq, Prod.mk.injEq] at hok
            obtain ⟨h1, h2, -⟩ := hok
            subst h1
            subst h2
            exact getOrFetch_hit currentYear i a2 s r hv hfind hr
        | false =>
            rw [getOrFetch_stale currentYear i (AdapterOutcome.fetched d) s r hv hfind hr] at hok
            simp only [fetchAndStore, Except.ok.injEq, Prod.mk.injEq] at hok
            obtain ⟨h1, h2, -⟩ := hok
            subst h1
            subst h2
            exact getOrFetch_hit currentYear i a2 _ _ hv
              (findByKey_upsert s (canonicalKey i) (buildSuccess i d) rfl) rfl
    | none =>
        rw [getOrFetch_none currentYear i (AdapterOutcome.fetched d) s hv hfind] at hok
        simp only [fetchAndStore, Except.ok.injEq, Prod.mk.injEq] at hok
        obtain ⟨h1, h2, -⟩ := hok
        subst h1
        subst h2
        exact getOrFetch_hit currentYear i a2 _ _ hv
          (findByKey_upsert s (canonicalKey i) (buildSuccess i d) rfl) rfl

/-- Witness for claim C1: a concrete successful fetch, then a second call for
the same identifier that is served from the store with no adapter call. -/
theorem claim_C1_witness :
    getOrFetch 2026 ⟨"WP", "5678", 2023, "High Court of Delhi"⟩
        (AdapterOutcome.failed AdapterFailure.timeout)
        [buildSuccess ⟨"WP", "5678", 2023, "High Court of Delhi"⟩
          ⟨"Rajesh Kumar vs State of Delhi", "WP", none, none, "Pending",
            "Rajesh Kumar", "State of Delhi", none, "raw"⟩] =
      Except.ok (buildSuccess ⟨"WP", "5678", 2023, "High Court of Delhi"⟩
          ⟨"Rajesh Kumar vs State of Delhi", "WP", none, none, "Pending",
            "Rajesh Kumar", "State of Delhi", none, "raw"⟩,
        [buildSuccess ⟨"WP", "5678", 2023, "High Court of Delhi"⟩
          ⟨"Rajesh Kumar vs State of Delhi", "WP", none, none, "Pending",
            "Rajesh Kumar", "State of Delhi", none, "raw"⟩], 0) :=
  (claim_C1_cache_first 2026 ⟨"WP", "5678", 2023, "High Court of Delhi"⟩
      (AdapterOutcome.fetched ⟨"Rajesh Kumar vs State of Delhi", "WP", none, none, "Pending",
        "Rajesh Kumar", "State of Delhi", none, "raw"⟩)
      (AdapterOutcome.failed AdapterFailure.timeout) [] (by decide)).2.2.2
    ⟨"Rajesh Kumar vs State of Delhi", "WP", none, none, "Pending",
      "Rajesh Kumar", "State of Delhi", none, "raw"⟩
    (buildSuccess ⟨"WP", "5678", 2023, "High Court of Delhi"⟩
      ⟨"Rajesh Kumar vs State of Delhi", "WP", none, none, "Pending",
        "Rajesh Kumar", "State of Delhi", none, "raw"⟩)
    [buildSuccess ⟨"WP", "5678", 2023, "High Court of Delhi"⟩
      ⟨"Rajesh Kumar vs State of Delhi", "WP", none, none, "Pending",
        "Rajesh Kumar", "State of Delhi", none, "raw"⟩]
    1 rfl rfl

/-- Claim C2: for a valid identifier and a store holding at most one row for
its canonical key, any non-empty sequence of `getOrFetch` calls for that
identifier — with adapter successes and failures interleaved in any order —
leaves the store with exactly one CaseRecord for that key. -/
theorem claim_C2_at_most_one_row (currentYear : Nat) (i : CaseIdentifier)
    (as : List AdapterOutcome) (s : List CaseRecord)
    (hv : specValidCase currentYear i = true)
    (hs : countKey (canonicalKey i) s ≤ 1) (hne : as ≠ []) :
    countKey (canonicalKey i) (runStore currentYear i as s) = 1 := by
  cases as with
  | nil => exact absurd rfl hne
  | cons a rest =>
      have h1 := countKey_stepStore currentYear i a s hv hs
      have := countKey_runStore_one currentYear i rest hv (stepStore currentYear i s a) h1
      simpa [runStore, List.foldl_cons] using this

/-- Witness for claim C2: a failed fetch followed by a successful one, from an
empty store, converges to exactly one row for the key. -/
theorem claim_C2_witness :
    countKey "WP 5678/2023"
      (runStore 2026 ⟨"WP", "5678", 2023, "High Court of Delhi"⟩
        [AdapterOutcome.failed AdapterFailure.notFound,
         AdapterOutcome.fetched ⟨"Rajesh Kumar vs State of Delhi", "WP", none, none,
           "Pending", "Rajesh Kumar", "State of Delhi", none, "raw"⟩] []) = 1 :=
  claim_C2_at_most_one_row 2026 ⟨"WP", "5678", 2023, "High Court of Delhi"⟩
    [AdapterOutcome.failed AdapterFailure.notFound,
     AdapterOutcome.fetched ⟨"Rajesh Kumar vs State of Delhi", "WP", none, none,
       "Pending", "Rajesh Kumar", "State of Delhi", none, "raw"⟩] []
    (by decide) (by decide) (by decide)

/-- Claim C4: for a valid identifier, `getOrFetch` always returns a record —
no adapter failure is re-thrown — and whenever the adapter is actually
consulted (no successful cached record) and fails (timeout, not-found or
malformed response), the call returns, and stores under the canonical key, a
CaseRecord with `success = false` and a non-empty sanitized error message. -/
theorem claim_C4_failures_absorbed (currentYear : Nat) (i : CaseIdentifier)
    (a : AdapterOutcome) (s : List CaseRecord)
    (hv : specValidCase currentYear i = true) :
    (∃ rec s' n, getOrFetch currentYear i a s = Except.ok (rec, s', n)) ∧
    (cacheHit s (canonicalKey i) = false → ∀ f, a = AdapterOutcome.failed f →
      ∃ rec s', getOrFetch currentYear i a s = Except.ok (rec, s', 1) ∧
        rec.success = false ∧
        (∃ m, rec.errorMessage = some m ∧ m ≠ "") ∧
        findByKey s' (canonicalKey i) = some rec) := by
  constructor
  · cases hfind : findByKey s (canonicalKey i) with
    | some r =>
        cases hr : r.success with
        | true => exact ⟨r, s, 0, getOrFetch_hit currentYear i a s r hv hfind hr⟩
        | false =>
            exact ⟨(fetchAndStore i a s).1, (fetchAndStore i a s).2.1,
              (fetchAndStore i a s).2.2, by
                rw [getOrFetch_stale currentYear i a s r hv hfind hr]⟩
    | none =>
        exact ⟨(fetchAndStore i a s).1, (fetchAndStore i a s).2.1,
          (fetchAndStore i a s).2.2, by rw [getOrFetch_none currentYear i a s hv hfind]⟩
  · intro hmiss f ha
    subst ha
    have hmsg : ∃ m, (buildFailure i f).errorMessage = some m ∧ m ≠ "" := by
      refine ⟨sanitizeFailure f, rfl, ?_⟩
      cases f <;> decide
    have hstore := findByKey_upsert s (canonicalKey i) (buildFailure i f) rfl
    cases hfind : findByKey s (canonicalKey i) with
    | some r =>
        cases hr : r.success with
        | true => simp [cacheHit, hfind, hr] at hmiss
        | false =>
            exact ⟨buildFailure i f, upsertByKey s (canonicalKey i) (buildFailure i f),
              getOrFetch_stale currentYear i (AdapterOutcome.failed f) s r hv hfind hr,
              rfl, hmsg, hstore⟩
    | none =>
        exact ⟨buildFailure i f, upsertByKey s (canonicalKey i) (buildFailure i f),
          getOrFetch_none currentYear i (AdapterOutcome.failed f) s hv hfind,
          rfl, hmsg, hstore⟩

/-- Witness for claim C4: a concrete not-found failure on an empty store. -/
theorem claim_C4_witness :
    ∃ rec s', getOrFetch 2026 ⟨"CRL", "9999", 2020, "High Court of Delhi"⟩
        (AdapterOutcome.failed AdapterFailure.notFound) [] = Except.ok (rec, s', 1) ∧
      rec.success = false ∧
      (∃ m, rec.errorMessage = some m ∧ m ≠ "") ∧
      findByKey s' (canonicalKey ⟨"CRL", "9999", 2020, "High Court of Delhi"⟩) = some rec :=
  (claim_C4_failures_absorbed 2026 ⟨"CRL", "9999", 2020, "High Court of Delhi"⟩
      (AdapterOutcome.failed AdapterFailure.notFound) [] (by decide)).2
    (by decide) AdapterFailure.notFound rfl

/-! Cause-list ordering and dedup lemmas. -/

theorem char_toNat_injective : Function.Injective Char.toNat := by
  intro a b h
  exact Char.ext (UInt32.ext h)

theorem strKey_inj {a b : String} (h : strKey a = strKey b) : a = b := by
  have hdata : a.data = b.data := List.map_injective_iff.mpr char_toNat_injective h
  cases a
  cases b
  exact congrArg String.mk hdata

theorem strKey_eq_iff (a b : String) : strKey a = strKey b ↔ a = b :=
  ⟨strKey_inj, fun h => h ▸ rfl⟩

theorem causeRel_iff (a b : CauseListEntry) : causeRel a b ↔ orderOk a b := by
  unfold causeRel causeKey orderOk
  rcases ha : a.hearing_time with _ | ta <;> rcases hb : b.hearing_time with _ | tb <;>
    simp [ha, hb, Prod.Lex.le_iff, Prod.Lex.lt_iff, Bool.lt_iff, lt_self_iff_false,
      toLex_inj, Prod.mk.injEq, strKey_eq_iff]

/-- Claim C6: the cause-list query returns its rows sorted by the guaranteed
order — hearing time ascending with missing times last, ties broken by case
number ascending — and (with no paging) the rows are exactly the stored
entries matching the court and date. -/
theorem claim_C6_query_ordered (store : List CauseListEntry) (court date : String)
    (skip limit : Nat)
    (hlim : (store.filter (fun e => e.court_name == court && e.date == date)).length ≤ limit) :
    (query store court date skip limit).Pairwise orderOk ∧
    List.Perm (query store court date 0 limit)
      (store.filter (fun e => e.court_name == court && e.date == date)) := by
  constructor
  · have hs : ((store.filter (fun e => e.court_name == court && e.date == date)).insertionSort
        causeRel).Pairwise causeRel := List.sorted_insertionSort causeRel _
    have hsub : List.Sublist (query store court date skip limit)
        ((store.filter (fun e => e.court_name == court && e.date == date)).insertionSort
          causeRel) :=
      (List.take_sublist _ _).trans (List.drop_sublist _ _)
    exact (hs.sublist hsub).imp (fun hab => (causeRel_iff _ _).mp hab)
  · unfold query
    rw [List.drop_zero, List.take_of_length_le]
    · exact List.perm_insertionSort causeRel _
    · rw [(List.perm_insertionSort causeRel _).length_eq]
      exact hlim

/-- Witness for claim C6 at a concrete three-entry store with mixed and
missing hearing times. -/
theorem claim_C6_witness :
    (query [demoEntryA, demoEntryB, demoEntryC] "H" "2025-01-01" 0 50).Pairwise orderOk ∧
    List.Perm (query [demoEntryA, demoEntryB, demoEntryC] "H" "2025-01-01" 0 50)
      ([demoEntryA, demoEntryB, demoEntryC].filter
        (fun e => e.court_name == "H" && e.date == "2025-01-01")) :=
  claim_C6_query_ordered [demoEntryA, demoEntryB, demoEntryC] "H" "2025-01-01" 0 50
    (by decide)

theorem keyMem_append (k : String × String × String) (s t : List CauseListEntry) :
    keyMem k (s ++ t) = (keyMem k s || keyMem k t) :=
  List.any_append

theorem keyMem_refresh (s l : List CauseListEntry) (e : CauseListEntry) (he : e ∈ l) :
    keyMem (entryKey e) (refresh s l) = true := by
  rw [refresh, keyMem_append]
  cases hmem : keyMem (entryKey e) s with
  | true => rw [Bool.true_or]
  | false =>
      rw [Bool.false_or]
      have hef : e ∈ l.filter (fun x => !(keyMem (entryKey x) s)) :=
        List.mem_filter.mpr ⟨he, by simp [hmem]⟩
      exact List.any_eq_true.mpr ⟨e, hef, by simp⟩

/-- Claim C8: refreshing twice with an identical adapter listing is idempotent
on the stored cause-list rows — the second refresh inserts nothing — and a
refresh on a store with pairwise-distinct (caseNumber, date, courtName) keys,
fed a listing with pairwise-distinct keys, keeps the stored keys
pairwise-distinct: no duplicate rows accumulate. -/
theorem claim_C8_refresh_dedup (s l : List CauseListEntry) :
    refresh (refresh s l) l = refresh s l ∧
    ((s.map entryKey).Nodup → (l.map entryKey).Nodup →
      ((refresh s l).map entryKey).Nodup) := by
  constructor
  · have hfil : l.filter (fun e => !(keyMem (entryKey e) (refresh s l))) = [] := by
      apply List.filter_eq_nil_iff.mpr
      intro e he
      rw [keyMem_refresh s l e he]
      simp
    calc refresh (refresh s l) l
        = refresh s l ++ l.filter (fun e => !(keyMem (entryKey e) (refresh s l))) := rfl
      _ = refresh s l := by rw [hfil, List.append_nil]
  · intro hnds hndl
    unfold refresh
    rw [List.map_append]
    apply List.Nodup.append hnds
    · exact List.Nodup.sublist ((List.filter_sublist _).map entryKey) hndl
    · intro k hk1 hk2
      simp only [List.mem_map] at hk1 hk2
      obtain ⟨x, hxs, hxk⟩ := hk1
      obtain ⟨y, hyf, hyk⟩ := hk2
      have hyl := List.mem_filter.mp hyf
      have hcond := hyl.2
      have hin : keyMem (entryKey y) s = true :=
        List.any_eq_true.mpr ⟨x, hxs, by simp [hxk.trans hyk.symm]⟩
      rw [hin] at hcond
      simp at hcond

/-- Witness for claim C8: a second refresh with the same singleton listing
adds nothing, and the refreshed store has pairwise-distinct keys. -/
theorem claim_C8_witness :
    refresh (refresh [] [demoEntryA]) [demoEntryA] = refresh [] [demoEntryA] ∧
    ((refresh [] [demoEntryA]).map entryKey).Nodup :=
  ⟨(claim_C8_refresh_dedup [] [demoEntryA]).1,
   (claim_C8_refresh_dedup [] [demoEntryA]).2 (by decide) (by decide)⟩

end CourtLedger
